import Mathlib

/-!
Shallow embedding of the `accountsclient` Go client library.

Conventions of the embedding:
* `uuid.UUID` is modelled as `Nat` (an abstract 128-bit identifier); the nil
  UUID `uuid.Nil` is `0`.  Go pointers `*uuid.UUID` become `Option UUID`.
* `time.Time` is modelled as `Int`, a timestamp in nanoseconds (Go's
  `time.Duration` unit); `t1.Before(t2)` is `t1 < t2`.
* HTTP exchanges are modelled by passing an explicit oracle describing the
  responses of the remote service; an operation that issues requests returns,
  next to its result, the list of requests it issued, so that claims about
  "no request is sent" or "exactly n requests" are statable.
* Fallible operations return `Except String α`, the `String` being the error
  text the Go code builds with `fmt.Errorf` / `errors.New`.
* `resp.Status` (Go's status line, e.g. "404 Not Found") is abstracted by
  `statusText`; the claims below depend on it only as an uninterpreted
  rendering of the numeric code.
-/

namespace AccountsClient

abbrev UUID := Nat

/-- Abstraction of Go's `http.Response.Status` status line. -/
def statusText (code : Nat) : String := toString code

/-! ## accounts.go: generic account inputs and the kind resolver -/

structure Account where
  id : UUID
  userID : Option UUID
  agencyID : Option UUID
  celebrityID : Option UUID
  businessID : Option UUID
  enterpriseID : Option UUID
  governmentID : Option UUID
  deriving Repr, DecidableEq

structure CreateAccountInput where
  userID : Option UUID
  agencyID : Option UUID
  celebrityID : Option UUID
  businessID : Option UUID
  enterpriseID : Option UUID
  governmentID : Option UUID
  deriving Repr, DecidableEq

/-- `func (input *CreateAccountInput) GetAccountType() string` (accounts.go):
the if/else-if chain over the six identifier pointers. -/
def CreateAccountInput.getAccountType (input : CreateAccountInput) : String :=
  if input.userID.isSome then "user"
  else if input.agencyID.isSome then "agency"
  else if input.celebrityID.isSome then "celebrity"
  else if input.businessID.isSome then "business"
  else if input.enterpriseID.isSome then "enterprise"
  else if input.governmentID.isSome then "government"
  else ""

structure UpdateAccountInput where
  userID : Option UUID
  agencyID : Option UUID
  celebrityID : Option UUID
  businessID : Option UUID
  enterpriseID : Option UUID
  governmentID : Option UUID
  deriving Repr, DecidableEq

/-- `func (input *UpdateAccountInput) GetAccountType() string` (accounts.go). -/
def UpdateAccountInput.getAccountType (input : UpdateAccountInput) : String :=
  if input.userID.isSome then "user"
  else if input.agencyID.isSome then "agency"
  else if input.celebrityID.isSome then "celebrity"
  else if input.businessID.isSome then "business"
  else if input.enterpriseID.isSome then "enterprise"
  else if input.governmentID.isSome then "government"
  else ""

structure SearchAccountInput where
  userID : Option UUID
  agencyID : Option UUID
  celebrityID : Option UUID
  businessID : Option UUID
  enterpriseID : Option UUID
  governmentID : Option UUID
  deriving Repr, DecidableEq

/-- `func (input *SearchAccountInput) GetAccountType() string` (accounts.go). -/
def SearchAccountInput.getAccountType (input : SearchAccountInput) : String :=
  if input.userID.isSome then "user"
  else if input.agencyID.isSome then "agency"
  else if input.celebrityID.isSome then "celebrity"
  else if input.businessID.isSome then "business"
  else if input.enterpriseID.isSome then "enterprise"
  else if input.governmentID.isSome then "government"
  else ""

/-- Spec-side description of the resolver (from the spec's words): the list of
kind tags whose identifier field is populated, in the documented order
user > agency > celebrity > business > enterprise > government. -/
def populatedKinds (u a c b e g : Option UUID) : List String :=
  (if u.isSome then ["user"] else []) ++
  (if a.isSome then ["agency"] else []) ++
  (if c.isSome then ["celebrity"] else []) ++
  (if b.isSome then ["business"] else []) ++
  (if e.isSome then ["enterprise"] else []) ++
  (if g.isSome then ["government"] else [])

/-- Spec-side resolver: the first populated kind in the fixed order, or the
empty string (the kind-undetermined marker that makes the callers fail with
"could not determine the account type") when no identifier is set. -/
def resolutionOrderSpec (u a c b e g : Option UUID) : String :=
  (populatedKinds u a c b e g).headD ""

theorem resolveChain_eq_spec (u a c b e g : Option UUID) :
    (if u.isSome then "user"
     else if a.isSome then "agency"
     else if c.isSome then "celebrity"
     else if b.isSome then "business"
     else if e.isSome then "enterprise"
     else if g.isSome then "government"
     else "") = resolutionOrderSpec u a c b e g := by
  cases u <;> cases a <;> cases c <;> cases b <;> cases e <;> cases g <;> rfl

/-- C1: for every resolver input with exactly one kind-identifier non-nil,
`GetAccountType` returns that kind's tag; with all six nil it returns the
kind-undetermined marker `""`; with several non-nil it returns the first
populated field in the fixed order user > agency > celebrity > business >
enterprise > government.  All three behaviours are captured at once by the
equation with `resolutionOrderSpec`: the result is the head of the list of
populated kinds in the fixed order, and `""` when that list is empty; in
particular a singleton list yields its unique tag. -/
theorem c1_getAccountType_resolution_order :
    (∀ i : CreateAccountInput, i.getAccountType =
      resolutionOrderSpec i.userID i.agencyID i.celebrityID i.businessID
        i.enterpriseID i.governmentID) ∧
    (∀ i : UpdateAccountInput, i.getAccountType =
      resolutionOrderSpec i.userID i.agencyID i.celebrityID i.businessID
        i.enterpriseID i.governmentID) ∧
    (∀ i : SearchAccountInput, i.getAccountType =
      resolutionOrderSpec i.userID i.agencyID i.celebrityID i.businessID
        i.enterpriseID i.governmentID) := by
  refine ⟨fun i => ?_, fun i => ?_, fun i => ?_⟩ <;>
    exact resolveChain_eq_spec i.userID i.agencyID i.celebrityID i.businessID
      i.enterpriseID i.governmentID

/-! ## accounts.go: DeleteAccount fan-out -/

/-- The fixed probing order of `DeleteAccount` and `ListAccounts`
(accounts.go: `accountTypes := []string{...}`). -/
def accountTypes : List String :=
  ["user", "agency", "celebrity", "business", "enterprise", "government"]

/-- The loop body of `func (c *Client) DeleteAccount` (accounts.go): for each
account type, issue a DELETE request; `200` ends with success, any status
other than `404` ends with the unexpected-response error, `404` continues;
an exhausted loop returns the account-not-found error.  `respond` gives the
status code the server answers for each kind's endpoint; the second component
of the result is the list of kinds actually probed, in order. -/
def deleteAccountLoop (respond : String → Nat) :
    List String → Except String Unit × List String
  | [] => (Except.error "account not found", [])
  | t :: rest =>
    if respond t = 200 then (Except.ok (), [t])
    else if respond t ≠ 404 then
      (Except.error ("unexpected response from server: " ++ statusText (respond t)), [t])
    else
      ((deleteAccountLoop respond rest).1, t :: (deleteAccountLoop respond rest).2)

/-- `func (c *Client) DeleteAccount` (accounts.go). -/
def deleteAccount (respond : String → Nat) : Except String Unit × List String :=
  deleteAccountLoop respond accountTypes

/-- A service on which the given id deletes successfully only under kind
"business"; every other kind answers 404. -/
def businessOnlyOracle : String → Nat :=
  fun t => if t = "business" then 200 else 404

theorem deleteAccountLoop_200 (respond : String → Nat) (t : String)
    (rest : List String) (h : respond t = 200) :
    deleteAccountLoop respond (t :: rest) = (Except.ok (), [t]) := by
  simp [deleteAccountLoop, h]

theorem deleteAccountLoop_404 (respond : String → Nat) (t : String)
    (rest : List String) (h : respond t = 404) :
    deleteAccountLoop respond (t :: rest) =
      ((deleteAccountLoop respond rest).1, t :: (deleteAccountLoop respond rest).2) := by
  simp [deleteAccountLoop, h]

theorem deleteAccountLoop_other (respond : String → Nat) (t : String)
    (rest : List String) (h200 : respond t ≠ 200) (h404 : respond t ≠ 404) :
    deleteAccountLoop respond (t :: rest) =
      (Except.error ("unexpected response from server: " ++ statusText (respond t)),
        [t]) := by
  simp [deleteAccountLoop, h200, h404]

theorem append_ne_account_not_found (x : String) :
    "unexpected response from server: " ++ x ≠ "account not found" := by
  intro h
  have hlen : ("unexpected response from server: " ++ x).length =
      ("account not found" : String).length := by rw [h]
  rw [String.length_append] at hlen
  have h1 : ("unexpected response from server: " : String).length = 33 := rfl
  have h2 : ("account not found" : String).length = 17 := rfl
  omega

/-- C2: `DeleteAccount` probes the six kind endpoints sequentially in the
fixed order user, agency, celebrity, business, enterprise, government; the
first 200 ends the iteration with success, a 404 continues, and six misses
return the account-not-found error.  Concretely, when only "business"
answers 200 (the earlier three answering 404), it succeeds after exactly 4
requests, probing neither enterprise nor government. -/
theorem c2_deleteAccount_sequential_fanout :
    (∀ (respond : String → Nat) (i : Nat), i < 6 →
      (∀ j, j < i → respond (accountTypes.getD j "") = 404) →
      respond (accountTypes.getD i "") = 200 →
      deleteAccount respond = (Except.ok (), accountTypes.take (i + 1))) ∧
    (∀ respond : String → Nat, (∀ t, t ∈ accountTypes → respond t = 404) →
      deleteAccount respond = (Except.error "account not found", accountTypes)) ∧
    (deleteAccount businessOnlyOracle =
        (Except.ok (), ["user", "agency", "celebrity", "business"]) ∧
      (deleteAccount businessOnlyOracle).2.length = 4 ∧
      "enterprise" ∉ (deleteAccount businessOnlyOracle).2 ∧
      "government" ∉ (deleteAccount businessOnlyOracle).2) := by
  refine ⟨?_, ?_, ?_⟩
  · intro respond i hi h404 h200
    interval_cases i
    · have g0 : respond "user" = 200 := h200
      simp [deleteAccount, accountTypes, deleteAccountLoop, g0]
    · have f0 : respond "user" = 404 := h404 0 (by norm_num)
      have g1 : respond "agency" = 200 := h200
      simp [deleteAccount, accountTypes, deleteAccountLoop, f0, g1]
    · have f0 : respond "user" = 404 := h404 0 (by norm_num)
      have f1 : respond "agency" = 404 := h404 1 (by norm_num)
      have g2 : respond "celebrity" = 200 := h200
      simp [deleteAccount, accountTypes, deleteAccountLoop, f0, f1, g2]
    · have f0 : respond "user" = 404 := h404 0 (by norm_num)
      have f1 : respond "agency" = 404 := h404 1 (by norm_num)
      have f2 : respond "celebrity" = 404 := h404 2 (by norm_num)
      have g3 : respond "business" = 200 := h200
      simp [deleteAccount, accountTypes, deleteAccountLoop, f0, f1, f2, g3]
    · have f0 : respond "user" = 404 := h404 0 (by norm_num)
      have f1 : respond "agency" = 404 := h404 1 (by norm_num)
      have f2 : respond "celebrity" = 404 := h404 2 (by norm_num)
      have f3 : respond "business" = 404 := h404 3 (by norm_num)
      have g4 : respond "enterprise" = 200 := h200
      simp [deleteAccount, accountTypes, deleteAccountLoop, f0, f1, f2, f3, g4]
    · have f0 : respond "user" = 404 := h404 0 (by norm_num)
      have f1 : respond "agency" = 404 := h404 1 (by norm_num)
      have f2 : respond "celebrity" = 404 := h404 2 (by norm_num)
      have f3 : respond "business" = 404 := h404 3 (by norm_num)
      have f4 : respond "enterprise" = 404 := h404 4 (by norm_num)
      have g5 : respond "government" = 200 := h200
      simp [deleteAccount, accountTypes, deleteAccountLoop, f0, f1, f2, f3, f4, g5]
  · intro respond hall
    have f0 : respond "user" = 404 := hall _ (by simp [accountTypes])
    have f1 : respond "agency" = 404 := hall _ (by simp [accountTypes])
    have f2 : respond "celebrity" = 404 := hall _ (by simp [accountTypes])
    have f3 : respond "business" = 404 := hall _ (by simp [accountTypes])
    have f4 : respond "enterprise" = 404 := hall _ (by simp [accountTypes])
    have f5 : respond "government" = 404 := hall _ (by simp [accountTypes])
    simp [deleteAccount, accountTypes, deleteAccountLoop, f0, f1, f2, f3, f4, f5]
  · exact ⟨by rfl, by rfl, by decide, by decide⟩

/-- Witness for C2: the first (hypothesis-bearing) clause applied to the
business-only service at index 3. -/
theorem c2_deleteAccount_sequential_fanout_witness :
    deleteAccount businessOnlyOracle =
      (Except.ok (), accountTypes.take 4) :=
  c2_deleteAccount_sequential_fanout.1 businessOnlyOracle 3 (by norm_num)
    (fun j hj => by interval_cases j <;> rfl) (by rfl)

/-- C9: during the `DeleteAccount` fan-out a status other than 200 and other
than 404 at some kind (all earlier kinds having answered 404) makes the
operation return the unexpected-response error at once: only the kinds up to
that one were probed, and the result is not the account-not-found error. -/
theorem c9_deleteAccount_unexpected_status_aborts :
    ∀ (respond : String → Nat) (i : Nat), i < 6 →
      (∀ j, j < i → respond (accountTypes.getD j "") = 404) →
      respond (accountTypes.getD i "") ≠ 200 →
      respond (accountTypes.getD i "") ≠ 404 →
      deleteAccount respond =
        (Except.error ("unexpected response from server: " ++
            statusText (respond (accountTypes.getD i ""))),
          accountTypes.take (i + 1)) ∧
      (deleteAccount respond).1 ≠ Except.error "account not found" := by
  intro respond i hi h404 hn200 hn404
  have hmain : deleteAccount respond =
      (Except.error ("unexpected response from server: " ++
          statusText (respond (accountTypes.getD i ""))),
        accountTypes.take (i + 1)) := by
    interval_cases i
    · have e0 : respond "user" ≠ 200 := hn200
      have e0' : respond "user" ≠ 404 := hn404
      simp [deleteAccount, accountTypes, deleteAccountLoop, e0, e0']
    · have f0 : respond "user" = 404 := h404 0 (by norm_num)
      have e1 : respond "agency" ≠ 200 := hn200
      have e1' : respond "agency" ≠ 404 := hn404
      simp [deleteAccount, accountTypes, deleteAccountLoop, f0, e1, e1']
    · have f0 : respond "user" = 404 := h404 0 (by norm_num)
      have f1 : respond "agency" = 404 := h404 1 (by norm_num)
      have e2 : respond "celebrity" ≠ 200 := hn200
      have e2' : respond "celebrity" ≠ 404 := hn404
      simp [deleteAccount, accountTypes, deleteAccountLoop, f0, f1, e2, e2']
    · have f0 : respond "user" = 404 := h404 0 (by norm_num)
      have f1 : respond "agency" = 404 := h404 1 (by norm_num)
      have f2 : respond "celebrity" = 404 := h404 2 (by norm_num)
      have e3 : respond "business" ≠ 200 := hn200
      have e3' : respond "business" ≠ 404 := hn404
      simp [deleteAccount, accountTypes, deleteAccountLoop, f0, f1, f2, e3, e3']
    · have f0 : respond "user" = 404 := h404 0 (by norm_num)
      have f1 : respond "agency" = 404 := h404 1 (by norm_num)
      have f2 : respond "celebrity" = 404 := h404 2 (by norm_num)
      have f3 : respond "business" = 404 := h404 3 (by norm_num)
      have e4 : respond "enterprise" ≠ 200 := hn200
      have e4' : respond "enterprise" ≠ 404 := hn404
      simp [deleteAccount, accountTypes, deleteAccountLoop, f0, f1, f2, f3, e4, e4']
    · have f0 : respond "user" = 404 := h404 0 (by norm_num)
      have f1 : respond "agency" = 404 := h404 1 (by norm_num)
      have f2 : respond "celebrity" = 404 := h404 2 (by norm_num)
      have f3 : respond "business" = 404 := h404 3 (by norm_num)
      have f4 : respond "enterprise" = 404 := h404 4 (by norm_num)
      have e5 : respond "government" ≠ 200 := hn200
      have e5' : respond "government" ≠ 404 := hn404
      simp [deleteAccount, accountTypes, deleteAccountLoop, f0, f1, f2, f3, f4, e5, e5']
  refine ⟨hmain, ?_⟩
  rw [hmain]
  simpa using append_ne_account_not_found
    (statusText (respond (accountTypes.getD i "")))

/-- Witness for C9: a service answering 500 at kind "user" at index 0. -/
theorem c9_deleteAccount_unexpected_status_aborts_witness :
    deleteAccount (fun t => if t = "user" then 500 else 404) =
      (Except.error ("unexpected response from server: " ++ statusText 500),
        accountTypes.take 1) ∧
    (deleteAccount (fun t => if t = "user" then 500 else 404)).1 ≠
      Except.error "account not found" :=
  c9_deleteAccount_unexpected_status_aborts
    (fun t => if t = "user" then 500 else 404) 0 (by norm_num)
    (fun j hj => absurd hj (by omega)) (by decide) (by decide)

/-! ## accounts.go: ListAccounts fan-out

A sub-request's outcome is modelled by an oracle
`respond : String → Except String (Nat × List Account)`: `.error e` is a
transport-level failure of `HttpClient.Do` (the body is never examined then),
`.ok (s, l)` is a reply with status code `s` whose body decodes to the account
list `l` (decoding happens only on status 200 in the Go code, so the list
component is only consulted then). -/

/-- The loop body of `func (c *Client) ListAccounts` (accounts.go): per kind,
a transport failure is returned as-is, a non-200 status returns the
bad-response error, and on 200 the decoded accounts are appended and the loop
continues; only a fully successful loop returns the accumulated slice. -/
def listAccountsLoop (respond : String → Except String (Nat × List Account)) :
    List String → Except String (List Account)
  | [] => Except.ok []
  | t :: rest =>
    match respond t with
    | Except.error e => Except.error e
    | Except.ok (s, decoded) =>
      if s ≠ 200 then Except.error ("bad response from server: " ++ statusText s)
      else
        match listAccountsLoop respond rest with
        | Except.error e => Except.error e
        | Except.ok more => Except.ok (decoded ++ more)

/-- `func (c *Client) ListAccounts` (accounts.go). -/
def listAccounts (respond : String → Except String (Nat × List Account)) :
    Except String (List Account) :=
  listAccountsLoop respond accountTypes

theorem listAccountsLoop_err (respond : String → Except String (Nat × List Account))
    (t : String) (rest : List String) (e : String) (h : respond t = Except.error e) :
    listAccountsLoop respond (t :: rest) = Except.error e := by
  simp [listAccountsLoop, h]

theorem listAccountsLoop_badStatus
    (respond : String → Except String (Nat × List Account))
    (t : String) (rest : List String) (s : Nat) (l : List Account)
    (h : respond t = Except.ok (s, l)) (hs : s ≠ 200) :
    listAccountsLoop respond (t :: rest) =
      Except.error ("bad response from server: " ++ statusText s) := by
  simp [listAccountsLoop, h, hs]

theorem listAccountsLoop_ok
    (respond : String → Except String (Nat × List Account))
    (t : String) (rest : List String) (l : List Account)
    (h : respond t = Except.ok (200, l)) :
    listAccountsLoop respond (t :: rest) =
      Except.map (fun more => l ++ more) (listAccountsLoop respond rest) := by
  rw [listAccountsLoop, h]
  simp only [ne_eq, not_true_eq_false, if_false]
  cases listAccountsLoop respond rest <;> rfl

/-- C3: when every one of the six per-kind list requests succeeds with status
200, `ListAccounts` returns the concatenation of the six decoded lists in the
fixed kind order, and the length of the result is the sum of the six per-kind
lengths (no deduplication, no reordering). -/
theorem c3_listAccounts_concatenates :
    ∀ f : String → List Account,
      listAccounts (fun t => Except.ok (200, f t)) =
        Except.ok (f "user" ++ f "agency" ++ f "celebrity" ++ f "business" ++
          f "enterprise" ++ f "government") ∧
      ∃ l, listAccounts (fun t => Except.ok (200, f t)) = Except.ok l ∧
        l.length = (f "user").length + (f "agency").length +
          (f "celebrity").length + (f "business").length +
          (f "enterprise").length + (f "government").length := by
  intro f
  have hmain : listAccounts (fun t => Except.ok (200, f t)) =
      Except.ok (f "user" ++ f "agency" ++ f "celebrity" ++ f "business" ++
        f "enterprise" ++ f "government") := by
    simp [listAccounts, accountTypes, listAccountsLoop, List.append_assoc]
  refine ⟨hmain, _, hmain, ?_⟩
  simp only [List.length_append]

/-- C6: a failing sub-request during `ListAccounts` — a transport error or a
non-200 status at some kind, all earlier kinds having succeeded with 200 —
makes the whole operation return an error, discarding the accounts already
collected from the earlier kinds (the result is `Except.error`, carrying no
partial account list). -/
theorem c6_listAccounts_abort_on_first_error :
    ∀ (respond : String → Except String (Nat × List Account)) (i : Nat),
      i < 6 →
      (∀ j, j < i → ∃ l, respond (accountTypes.getD j "") = Except.ok (200, l)) →
      (∀ e, respond (accountTypes.getD i "") = Except.error e →
        listAccounts respond = Except.error e) ∧
      (∀ s l, respond (accountTypes.getD i "") = Except.ok (s, l) → s ≠ 200 →
        listAccounts respond =
          Except.error ("bad response from server: " ++ statusText s)) := by
  intro respond i hi hok
  have key : ∀ e', listAccountsLoop respond (accountTypes.drop i) = Except.error e' →
      listAccounts respond = Except.error e' := by
    intro e' hdrop
    interval_cases i
    · exact hdrop
    · obtain ⟨l0, g0⟩ := hok 0 (by norm_num)
      have g0' : respond "user" = Except.ok (200, l0) := g0
      rw [listAccounts, show accountTypes = "user" :: accountTypes.drop 1 from rfl,
        listAccountsLoop_ok respond _ _ l0 g0', hdrop]
      rfl
    · obtain ⟨l0, g0⟩ := hok 0 (by norm_num)
      obtain ⟨l1, g1⟩ := hok 1 (by norm_num)
      have g0' : respond "user" = Except.ok (200, l0) := g0
      have g1' : respond "agency" = Except.ok (200, l1) := g1
      rw [listAccounts, show accountTypes = "user" :: "agency" :: accountTypes.drop 2 from rfl,
        listAccountsLoop_ok respond _ _ l0 g0',
        listAccountsLoop_ok respond _ _ l1 g1', hdrop]
      rfl
    · obtain ⟨l0, g0⟩ := hok 0 (by norm_num)
      obtain ⟨l1, g1⟩ := hok 1 (by norm_num)
      obtain ⟨l2, g2⟩ := hok 2 (by norm_num)
      have g0' : respond "user" = Except.ok (200, l0) := g0
      have g1' : respond "agency" = Except.ok (200, l1) := g1
      have g2' : respond "celebrity" = Except.ok (200, l2) := g2
      rw [listAccounts,
        show accountTypes = "user" :: "agency" :: "celebrity" :: accountTypes.drop 3 from rfl,
        listAccountsLoop_ok respond _ _ l0 g0',
        listAccountsLoop_ok respond _ _ l1 g1',
        listAccountsLoop_ok respond _ _ l2 g2', hdrop]
      rfl
    · obtain ⟨l0, g0⟩ := hok 0 (by norm_num)
      obtain ⟨l1, g1⟩ := hok 1 (by norm_num)
      obtain ⟨l2, g2⟩ := hok 2 (by norm_num)
      obtain ⟨l3, g3⟩ := hok 3 (by norm_num)
      have g0' : respond "user" = Except.ok (200, l0) := g0
      have g1' : respond "agency" = Except.ok (200, l1) := g1
      have g2' : respond "celebrity" = Except.ok (200, l2) := g2
      have g3' : respond "business" = Except.ok (200, l3) := g3
      rw [listAccounts,
        show accountTypes =
          "user" :: "agency" :: "celebrity" :: "business" :: accountTypes.drop 4 from rfl,
        listAccountsLoop_ok respond _ _ l0 g0',
        listAccountsLoop_ok respond _ _ l1 g1',
        listAccountsLoop_ok respond _ _ l2 g2',
        listAccountsLoop_ok respond _ _ l3 g3', hdrop]
      rfl
    · obtain ⟨l0, g0⟩ := hok 0 (by norm_num)
      obtain ⟨l1, g1⟩ := hok 1 (by norm_num)
      obtain ⟨l2, g2⟩ := hok 2 (by norm_num)
      obtain ⟨l3, g3⟩ := hok 3 (by norm_num)
      obtain ⟨l4, g4⟩ := hok 4 (by norm_num)
      have g0' : respond "user" = Except.ok (200, l0) := g0
      have g1' : respond "agency" = Except.ok (200, l1) := g1
      have g2' : respond "celebrity" = Except.ok (200, l2) := g2
      have g3' : respond "business" = Except.ok (200, l3) := g3
      have g4' : respond "enterprise" = Except.ok (200, l4) := g4
      rw [listAccounts,
        show accountTypes =
          "user" :: "agency" :: "celebrity" :: "business" :: "enterprise" ::
            accountTypes.drop 5 from rfl,
        listAccountsLoop_ok respond _ _ l0 g0',
        listAccountsLoop_ok respond _ _ l1 g1',
        listAccountsLoop_ok respond _ _ l2 g2',
        listAccountsLoop_ok respond _ _ l3 g3',
        listAccountsLoop_ok respond _ _ l4 g4', hdrop]
      rfl
  constructor
  · intro e he
    refine key e ?_
    have hcons : ∃ rest, accountTypes.drop i = accountTypes.getD i "" :: rest := by
      interval_cases i <;> exact ⟨_, rfl⟩
    obtain ⟨rest, hrest⟩ := hcons
    rw [hrest]
    exact listAccountsLoop_err respond _ rest e he
  · intro s l hsl hs
    refine key _ ?_
    have hcons : ∃ rest, accountTypes.drop i = accountTypes.getD i "" :: rest := by
      interval_cases i <;> exact ⟨_, rfl⟩
    obtain ⟨rest, hrest⟩ := hcons
    rw [hrest]
    exact listAccountsLoop_badStatus respond _ rest s l hsl hs

/-- A sample account record for concrete evaluations. -/
def sampleAccount : Account :=
  ⟨1, some 7, none, none, none, none, none⟩

/-- Witness for C6: kind "user" succeeds with one account, kind "agency"
fails at the transport level; the whole listing returns that error. -/
theorem c6_listAccounts_abort_on_first_error_witness :
    listAccounts (fun t =>
      if t = "user" then Except.ok (200, [sampleAccount])
      else Except.error "transport failure") = Except.error "transport failure" :=
  (c6_listAccounts_abort_on_first_error
      (fun t =>
        if t = "user" then Except.ok (200, [sampleAccount])
        else Except.error "transport failure")
      1 (by norm_num)
      (fun j hj => by
        interval_cases j
        exact ⟨[sampleAccount], rfl⟩)).1 "transport failure" rfl

/-! ## tokens.go: Token, Validate and CreateToken

`time.Time` is an `Int` in nanoseconds; `time.Hour * 24` is
`24 * hourNanos`.  The Go nil UUID `uuid.Nil` is `0`. -/

/-- Go's `time.Hour` in nanoseconds. -/
def hourNanos : Int := 3600000000000

/-- `type Token struct` (tokens.go).  The Go `Error error` field carries a
possible error value and is modelled as an optional error text. -/
structure Token where
  plaintext : String
  hash : List Nat
  userID : UUID
  expiry : Int
  scope : String
  errorText : Option String

/-- `func (t *Token) Validate() error` (service accounts file): user ID must
be non-nil, scope non-empty, and the expiry must not be before `time.Now()`
(modelled by the explicit `now`). -/
def Token.validate (t : Token) (now : Int) : Except String Unit :=
  if t.userID = 0 then Except.error "user ID is required"
  else if t.scope = "" then Except.error "scope is required"
  else if t.expiry < now then Except.error "expiry must be a future time"
  else Except.ok ()

/-- The payload `CreateToken` builds before validating and submitting:
`Token{UserID: userID, Scope: scope, Expiry: time.Now().Add(time.Hour * 24)}`
(tokens.go); the remaining fields keep their Go zero values. -/
def createTokenPayload (userID : UUID) (scope : String) (now : Int) : Token :=
  { plaintext := ""
    hash := []
    userID := userID
    expiry := now + 24 * hourNanos
    scope := scope
    errorText := none }

/-- `func (c *Client) CreateToken(userID uuid.UUID, scope string)`
(tokens.go): build the payload, validate it, and only then POST it; a 201
reply decodes to the created token, anything else is an error carrying the
body.  `respond` maps a submitted payload to the transport outcome
(`.error` = `Do` failed; `.ok (status, body, decoded)` = reply).  The second
component of the result is the list of payloads actually submitted. -/
def createToken (userID : UUID) (scope : String) (now : Int)
    (respond : Token → Except String (Nat × String × Token)) :
    Except String Token × List Token :=
  match (createTokenPayload userID scope now).validate now with
  | Except.error e => (Except.error e, [])
  | Except.ok () =>
    match respond (createTokenPayload userID scope now) with
    | Except.error e =>
        (Except.error ("unable to send request: " ++ e),
          [createTokenPayload userID scope now])
    | Except.ok (s, body, decoded) =>
        if s ≠ 201 then
          (Except.error ("unexpected status code: got " ++ toString s ++
              ", body: " ++ body),
            [createTokenPayload userID scope now])
        else (Except.ok decoded, [createTokenPayload userID scope now])

/-- C4: `CreateToken` validates the payload client-side before any network
request: (a) whenever the antecedent of the claim holds — the scope is empty
or the payload's expiry is not in the future — the call returns a validation
error and the list of issued requests is empty; (b) more generally any
`Validate` failure is returned before a single request is issued; (c) the
validator itself rejects a past expiry (`expiry must be a future time`), so a
past expiry can never reach the network. -/
theorem c4_createToken_validates_before_network :
    (∀ (uid : UUID) (scope : String) (now : Int)
        (respond : Token → Except String (Nat × String × Token)),
      (scope = "" ∨ ¬ now < (createTokenPayload uid scope now).expiry) →
      ∃ e, createToken uid scope now respond = (Except.error e, [])) ∧
    (∀ (uid : UUID) (scope : String) (now : Int)
        (respond : Token → Except String (Nat × String × Token)) (e : String),
      (createTokenPayload uid scope now).validate now = Except.error e →
      createToken uid scope now respond = (Except.error e, [])) ∧
    (∀ (t : Token) (now : Int), t.userID ≠ 0 → t.scope ≠ "" → t.expiry < now →
      t.validate now = Except.error "expiry must be a future time") := by
  refine ⟨?_, ?_, ?_⟩
  · intro uid scope now respond h
    rcases h with hs | he
    · by_cases h0 : uid = 0
      · exact ⟨"user ID is required",
          by simp [createToken, createTokenPayload, Token.validate, h0, hs]⟩
      · exact ⟨"scope is required",
          by simp [createToken, createTokenPayload, Token.validate, h0, hs]⟩
    · exfalso
      apply he
      simp only [createTokenPayload, hourNanos]
      omega
  · intro uid scope now respond e h
    unfold createToken
    rw [h]
  · intro t now h1 h2 h3
    simp [Token.validate, h1, h2, h3]

/-- Witness for C4: empty scope, user 5, at time 0: the validation error
comes back and no request is issued. -/
theorem c4_createToken_validates_before_network_witness :
    ∃ e, createToken 5 "" 0 (fun _ => Except.error "unreachable") =
      (Except.error e, []) :=
  c4_createToken_validates_before_network.1 5 "" 0
    (fun _ => Except.error "unreachable") (Or.inl rfl)

/-- C10: the expiry of the payload built by `CreateToken` is exactly 24 hours
after the time of the call, for every caller input — the interface (user id
and scope) offers no way to choose it — and therefore every payload it
submits has a strictly future expiry. -/
theorem c10_createToken_expiry_24h :
    ∀ (uid : UUID) (scope : String) (now : Int)
      (respond : Token → Except String (Nat × String × Token)),
      (createTokenPayload uid scope now).expiry = now + 24 * hourNanos ∧
      now < (createTokenPayload uid scope now).expiry ∧
      (∀ req, req ∈ (createToken uid scope now respond).2 →
        req.expiry = now + 24 * hourNanos ∧ now < req.expiry) := by
  intro uid scope now respond
  have hfut : now < (createTokenPayload uid scope now).expiry := by
    simp only [createTokenPayload, hourNanos]
    omega
  refine ⟨rfl, hfut, ?_⟩
  intro req hreq
  have hsub : ∀ l : List Token, (createToken uid scope now respond).2 = l →
      l = [] ∨ l = [createTokenPayload uid scope now] := by
    intro l hl
    unfold createToken at hl
    rcases hval : (createTokenPayload uid scope now).validate now with e | u
    · rw [hval] at hl
      exact Or.inl hl.symm
    · rw [hval] at hl
      rcases hresp : respond (createTokenPayload uid scope now) with e | triple
      · rw [hresp] at hl
        exact Or.inr hl.symm
      · rw [hresp] at hl
        obtain ⟨s, body, decoded⟩ := triple
        by_cases hs : s = 201
        · simp [hs] at hl
          exact Or.inr hl.symm
        · simp [hs] at hl
          exact Or.inr hl.symm
  rcases hsub (createToken uid scope now respond).2 rfl with hnil | hone
  · rw [hnil] at hreq
    cases hreq
  · rw [hone] at hreq
    have : req = createTokenPayload uid scope now := by
      simpa using hreq
    rw [this]
    exact ⟨rfl, hfut⟩

/-- Witness for C10: the submitted-payload clause evaluated for user 5,
scope "deploy", time 0. -/
theorem c10_createToken_expiry_24h_witness :
    (createTokenPayload 5 "deploy" 0).expiry = 0 + 24 * hourNanos ∧
    (0 : Int) < (createTokenPayload 5 "deploy" 0).expiry :=
  (c10_createToken_expiry_24h 5 "deploy" 0 (fun _ => Except.error "x")).2.2
    (createTokenPayload 5 "deploy" 0) (by
      show createTokenPayload 5 "deploy" 0 ∈ [createTokenPayload 5 "deploy" 0]
      exact List.mem_singleton.mpr rfl)

/-! ## encoding/json model

A marshalled Go struct is modelled as the ordered list of the JSON object's
fields, each a key paired with a rendered value.  `encoding/json` semantics
used by the structs below:
* a field tagged `json:"-"` is skipped entirely;
* `omitempty` omits a field whose Go value is empty, where empty means the
  zero bool or number, a nil pointer, or a string/array/slice/map of length
  zero — so it omits an empty `string` and a nil pointer, but it NEVER omits
  a `uuid.UUID`, which is the 16-byte array `[16]byte` and always has
  length 16;
* a non-`omitempty` nil pointer renders as JSON `null`.
UUID and timestamp rendering are abstracted by `toString`. -/

inductive Json where
  | null : Json
  | str : String → Json
  | arr : List String → Json

/-- Rendering of a `uuid.UUID` (canonical string form, abstracted). -/
def renderUUID (u : UUID) : String := toString u

/-- Rendering of a timestamp (RFC3339, abstracted). -/
def renderTime (t : Int) : String := toString t

/-! ## service accounts file: ServiceAccount -/

/-- `type ServiceAccount struct` with tags `json:"id"`, `json:"-"` (Secret),
`json:"service_name"`, `json:"roles"`, `json:"created_at"`,
`json:"expires_at,omitempty"`. -/
structure ServiceAccount where
  id : UUID
  secret : String
  serviceName : String
  roles : List String
  createdAt : Int
  expiresAt : Option Int

/-- JSON marshalling of a `ServiceAccount` under the struct's tags: `Secret`
is tagged `json:"-"` and skipped; `ExpiresAt` is an `omitempty` pointer and
omitted when nil. -/
def marshalServiceAccount (a : ServiceAccount) : List (String × Json) :=
  [("id", Json.str (renderUUID a.id)),
   ("service_name", Json.str a.serviceName),
   ("roles", Json.arr a.roles),
   ("created_at", Json.str (renderTime a.createdAt))] ++
  (match a.expiresAt with
   | none => []
   | some t => [("expires_at", Json.str (renderTime t))])

/-- C8: the JSON serialization of a `ServiceAccount` never contains the
secret: two values that differ only in `Secret` marshal to identical output,
and no `"secret"` key ever appears among the serialized fields. -/
theorem c8_serviceAccount_secret_never_serialized :
    (∀ a b : ServiceAccount, a.id = b.id → a.serviceName = b.serviceName →
      a.roles = b.roles → a.createdAt = b.createdAt → a.expiresAt = b.expiresAt →
      marshalServiceAccount a = marshalServiceAccount b) ∧
    (∀ a : ServiceAccount,
      "secret" ∉ (marshalServiceAccount a).map Prod.fst) := by
  constructor
  · intro a b h1 h2 h3 h4 h5
    obtain ⟨ai, as', an, ar, ac, ae⟩ := a
    obtain ⟨bi, bs, bn, br, bc, be⟩ := b
    simp only at h1 h2 h3 h4 h5
    subst h1; subst h2; subst h3; subst h4; subst h5
    rfl
  · intro a
    cases h : a.expiresAt <;> simp [marshalServiceAccount, h]

/-- Witness for C8: two concrete service accounts agreeing on everything but
the secret serialize identically. -/
theorem c8_serviceAccount_secret_never_serialized_witness :
    marshalServiceAccount
        ⟨9, "hunter2", "billing", ["admin"], 100, some 200⟩ =
      marshalServiceAccount
        ⟨9, "s3cr3t!", "billing", ["admin"], 100, some 200⟩ :=
  c8_serviceAccount_secret_never_serialized.1
    ⟨9, "hunter2", "billing", ["admin"], 100, some 200⟩
    ⟨9, "s3cr3t!", "billing", ["admin"], 100, some 200⟩
    rfl rfl rfl rfl rfl

/-! ## account_memberships.go: UpdateAccountMembership's request body -/

/-- `type UpdateAccountMembershipEvent struct` with tags
`json:"account_type,omitempty"`, `json:"account_id,omitempty"`,
`json:"user_id,omitempty"`, `json:"role,omitempty"`.  Note `AccountID` and
`UserID` are plain `uuid.UUID` values (16-byte arrays), not pointers. -/
structure UpdateAccountMembershipEvent where
  accountType : String
  accountID : UUID
  userID : UUID
  role : String

/-- JSON body sent by `UpdateAccountMembership` (the `json.Marshal(event)` of
account_memberships.go) under Go `encoding/json` semantics: `omitempty`
omits the empty strings `account_type` and `role`, but a `uuid.UUID` is the
array `[16]byte`, which is never "empty", so `account_id` and `user_id` are
always emitted — even when they hold the zero UUID. -/
def marshalUpdateMembershipEvent (e : UpdateAccountMembershipEvent) :
    List (String × Json) :=
  (if e.accountType = "" then [] else [("account_type", Json.str e.accountType)]) ++
  [("account_id", Json.str (renderUUID e.accountID)),
   ("user_id", Json.str (renderUUID e.userID))] ++
  (if e.role = "" then [] else [("role", Json.str e.role)])

/-- Modelled from the spec's words ("Update is a partial patch (only provided
fields are sent)"): a body that contains exactly the provided fields, a
zero-valued field being unprovided. -/
def partialPatchSpec (e : UpdateAccountMembershipEvent) :
    List (String × Json) :=
  (if e.accountType = "" then [] else [("account_type", Json.str e.accountType)]) ++
  (if e.accountID = 0 then [] else [("account_id", Json.str (renderUUID e.accountID))]) ++
  (if e.userID = 0 then [] else [("user_id", Json.str (renderUUID e.userID))]) ++
  (if e.role = "" then [] else [("role", Json.str e.role)])

/-- JSON body sent by the generic `UpdateAccount` (accounts.go), the
`json.Marshal(input)` of `UpdateAccountInput`: `user_id` has no `omitempty`
and renders as `null` when nil; the five kind-specific fields are `omitempty`
pointers and are omitted when nil. -/
def marshalUpdateAccountInput (i : UpdateAccountInput) : List (String × Json) :=
  [("user_id", match i.userID with
    | none => Json.null
    | some u => Json.str (renderUUID u))] ++
  (match i.agencyID with
    | none => [] | some u => [("agencyId", Json.str (renderUUID u))]) ++
  (match i.celebrityID with
    | none => [] | some u => [("celebrityId", Json.str (renderUUID u))]) ++
  (match i.businessID with
    | none => [] | some u => [("businessId", Json.str (renderUUID u))]) ++
  (match i.enterpriseID with
    | none => [] | some u => [("enterpriseId", Json.str (renderUUID u))]) ++
  (match i.governmentID with
    | none => [] | some u => [("governmentId", Json.str (renderUUID u))])

/-- Modelled from the spec's words ("full-replace of the kind-specific
fields"): a body that always contains all six fields, nil rendering as
`null`. -/
def fullReplaceSpec (i : UpdateAccountInput) : List (String × Json) :=
  [("user_id", match i.userID with
      | none => Json.null | some u => Json.str (renderUUID u)),
   ("agencyId", match i.agencyID with
      | none => Json.null | some u => Json.str (renderUUID u)),
   ("celebrityId", match i.celebrityID with
      | none => Json.null | some u => Json.str (renderUUID u)),
   ("businessId", match i.businessID with
      | none => Json.null | some u => Json.str (renderUUID u)),
   ("enterpriseId", match i.enterpriseID with
      | none => Json.null | some u => Json.str (renderUUID u)),
   ("governmentId", match i.governmentID with
      | none => Json.null | some u => Json.str (renderUUID u))]

/-- The fully-unset membership update event. -/
def emptyMembershipEvent : UpdateAccountMembershipEvent := ⟨"", 0, 0, ""⟩

/-- The fully-unset generic account update input. -/
def emptyUpdateAccountInput : UpdateAccountInput :=
  ⟨none, none, none, none, none, none⟩

/-- Counterexample to C5 at explicit inputs: for the fully-unset membership
event the submitted body still contains two fields (`account_id` and
`user_id`), whereas a strict partial patch would submit none; and for the
fully-unset generic account input the submitted body contains one field, not
the full set of six a full replace would submit. -/
theorem c5_counterexample_not_strict_partial_patch :
    marshalUpdateMembershipEvent emptyMembershipEvent ≠
      partialPatchSpec emptyMembershipEvent ∧
    (marshalUpdateMembershipEvent emptyMembershipEvent).length = 2 ∧
    (partialPatchSpec emptyMembershipEvent).length = 0 ∧
    marshalUpdateAccountInput emptyUpdateAccountInput ≠
      fullReplaceSpec emptyUpdateAccountInput ∧
    (marshalUpdateAccountInput emptyUpdateAccountInput).length = 1 ∧
    (fullReplaceSpec emptyUpdateAccountInput).length = 6 := by
  refine ⟨?_, rfl, rfl, ?_, rfl, rfl⟩
  · intro h
    have := congrArg List.length h
    simp [marshalUpdateMembershipEvent, partialPatchSpec,
      emptyMembershipEvent] at this
  · intro h
    have := congrArg List.length h
    simp [marshalUpdateAccountInput, fullReplaceSpec,
      emptyUpdateAccountInput] at this

/-- C5 as amended: the membership update body is a partial patch only in its
string fields — `account_type` and `role` appear exactly when provided, while
`account_id` and `user_id` always appear, zero or not, because Go's
`omitempty` never omits a 16-byte UUID array; the generic account update
always sends `user_id` (null when nil) and omits each unset kind-specific
pointer field, so it is not a full replace at the serialization level
either. -/
theorem c5_amended_field_presence :
    ∀ (e : UpdateAccountMembershipEvent) (i : UpdateAccountInput),
      (("account_type" ∈ (marshalUpdateMembershipEvent e).map Prod.fst) ↔
        e.accountType ≠ "") ∧
      ("account_id" ∈ (marshalUpdateMembershipEvent e).map Prod.fst) ∧
      ("user_id" ∈ (marshalUpdateMembershipEvent e).map Prod.fst) ∧
      (("role" ∈ (marshalUpdateMembershipEvent e).map Prod.fst) ↔
        e.role ≠ "") ∧
      ("user_id" ∈ (marshalUpdateAccountInput i).map Prod.fst) ∧
      (("agencyId" ∈ (marshalUpdateAccountInput i).map Prod.fst) ↔
        i.agencyID.isSome) ∧
      (("celebrityId" ∈ (marshalUpdateAccountInput i).map Prod.fst) ↔
        i.celebrityID.isSome) ∧
      (("businessId" ∈ (marshalUpdateAccountInput i).map Prod.fst) ↔
        i.businessID.isSome) ∧
      (("enterpriseId" ∈ (marshalUpdateAccountInput i).map Prod.fst) ↔
        i.enterpriseID.isSome) ∧
      (("governmentId" ∈ (marshalUpdateAccountInput i).map Prod.fst) ↔
        i.governmentID.isSome) := by
  intro e i
  refine ⟨?_, ?_, ?_, ?_, ?_, ?_, ?_, ?_, ?_, ?_⟩
  · by_cases h1 : e.accountType = "" <;>
      by_cases h2 : e.role = "" <;>
        simp [marshalUpdateMembershipEvent, h1, h2]
  · by_cases h1 : e.accountType = "" <;>
      by_cases h2 : e.role = "" <;>
        simp [marshalUpdateMembershipEvent, h1, h2]
  · by_cases h1 : e.accountType = "" <;>
      by_cases h2 : e.role = "" <;>
        simp [marshalUpdateMembershipEvent, h1, h2]
  · by_cases h1 : e.accountType = "" <;>
      by_cases h2 : e.role = "" <;>
        simp [marshalUpdateMembershipEvent, h1, h2]
  · cases hu : i.userID <;>
      cases ha : i.agencyID <;> cases hc : i.celebrityID <;>
        cases hb : i.businessID <;> cases he : i.enterpriseID <;>
          cases hg : i.governmentID <;>
            simp [marshalUpdateAccountInput, hu, ha, hc, hb, he, hg]
  · cases ha : i.agencyID <;> cases hc : i.celebrityID <;>
      cases hb : i.businessID <;> cases he : i.enterpriseID <;>
        cases hg : i.governmentID <;>
          simp [marshalUpdateAccountInput, ha, hc, hb, he, hg]
  · cases ha : i.agencyID <;> cases hc : i.celebrityID <;>
      cases hb : i.businessID <;> cases he : i.enterpriseID <;>
        cases hg : i.governmentID <;>
          simp [marshalUpdateAccountInput, ha, hc, hb, he, hg]
  · cases ha : i.agencyID <;> cases hc : i.celebrityID <;>
      cases hb : i.businessID <;> cases he : i.enterpriseID <;>
        cases hg : i.governmentID <;>
          simp [marshalUpdateAccountInput, ha, hc, hb, he, hg]
  · cases ha : i.agencyID <;> cases hc : i.celebrityID <;>
      cases hb : i.businessID <;> cases he : i.enterpriseID <;>
        cases hg : i.governmentID <;>
          simp [marshalUpdateAccountInput, ha, hc, hb, he, hg]
  · cases ha : i.agencyID <;> cases hc : i.celebrityID <;>
      cases hb : i.businessID <;> cases he : i.enterpriseID <;>
        cases hg : i.governmentID <;>
          simp [marshalUpdateAccountInput, ha, hc, hb, he, hg]

/-! ## Response handling of the single-endpoint delete operations

Each `...Outcome` function is the response-handling step of the named Go
delete method: given the reply's status code and body text, it returns what
the method returns (client-side pre-validation and URL building, which do
not depend on the response, are not part of these functions; the
`DeleteAccount` fan-out is modelled separately above). -/

/-- `DeleteAgencyAccount` (agency.go): any 2xx is success
(`resp.StatusCode < 200 || resp.StatusCode >= 300` is the error branch). -/
def deleteAgencyAccountOutcome (s : Nat) (body : String) : Except String Unit :=
  if s < 200 ∨ 300 ≤ s then
    Except.error ("non-2XX status code: " ++ toString s ++ ". Response body: " ++ body)
  else Except.ok ()

/-- `DeleteToken` (tokens.go): success is exactly 204 (`StatusNoContent`). -/
def deleteTokenOutcome (s : Nat) (body : String) : Except String Unit :=
  if s ≠ 204 then
    Except.error ("unexpected status code: got " ++ toString s ++ ", body: " ++ body)
  else Except.ok ()

/-- `DeleteTokensByUserID` (tokens.go): success is exactly 200. -/
def deleteTokensByUserIDOutcome (s : Nat) (body : String) : Except String Unit :=
  if s ≠ 200 then
    Except.error ("unexpected status code: got " ++ toString s ++ ", body: " ++ body)
  else Except.ok ()

/-- `DeleteExpiredTokens` (tokens.go): success is exactly 200. -/
def deleteExpiredTokensOutcome (s : Nat) (body : String) : Except String Unit :=
  if s ≠ 200 then
    Except.error ("unexpected status code: got " ++ toString s ++ ", body: " ++ body)
  else Except.ok ()

/-- `DeleteAccountMembership` (account_memberships.go): success is exactly 200. -/
def deleteAccountMembershipOutcome (s : Nat) (body : String) : Except String Unit :=
  if s ≠ 200 then
    Except.error ("server returned status " ++ toString s ++ ": " ++ body)
  else Except.ok ()

/-- `DeleteAccountLink` (account_links.go): success is exactly 200. -/
def deleteAccountLinkOutcome (s : Nat) (body : String) : Except String Unit :=
  if s ≠ 200 then
    Except.error ("DeleteAccountLink returned a non-200 status code, response: " ++ body)
  else Except.ok ()

/-- `type CreateCelebrityAccountResponse struct` (celebrity.go), the body
shape `DeleteCelebrityAccount` decodes on a 200 reply. -/
structure CreateCelebrityAccountResponse where
  celebrityID : UUID
  status : String
  message : String

/-- `DeleteCelebrityAccount` (celebrity.go): a non-200 status errors with the
status line and body; on 200 the body is decoded into a
`CreateCelebrityAccountResponse` — a decode failure errors with
`could not parse response:`, a decoded `Status` other than `"success"` errors
with `failed to delete celebrity account:` and the response's message, and
only then does the call succeed.  `decoded` is what `json.Decode` yields for
this body (`.error` = decode failure). -/
def deleteCelebrityAccountOutcome (s : Nat) (body : String)
    (decoded : Except String CreateCelebrityAccountResponse) : Except String Unit :=
  if s ≠ 200 then
    Except.error ("could not delete celebrity account: " ++ statusText s ++ ", " ++ body)
  else
    match decoded with
    | Except.error e => Except.error ("could not parse response: " ++ e)
    | Except.ok r =>
      if r.status ≠ "success" then
        Except.error ("failed to delete celebrity account: " ++ r.message)
      else Except.ok ()

/-- `DeleteEnterpriseAccount` (enterprise.go): success is exactly 200. -/
def deleteEnterpriseAccountOutcome (s : Nat) (body : String) : Except String Unit :=
  if s ≠ 200 then
    Except.error ("DeleteEnterpriseAccount failed: " ++ toString s ++ " " ++ body)
  else Except.ok ()

/-- `DeleteGovernmentAccount` (government file): success is exactly 200; the
error is `errors.New(string(bodyBytes))`, the bare body. -/
def deleteGovernmentAccountOutcome (s : Nat) (body : String) : Except String Unit :=
  if s ≠ 200 then Except.error body
  else Except.ok ()

/-- `DeleteBusinessAccount` (business file): success is exactly 200; the
error carries `resp.Status` (the status line), not the response body. -/
def deleteBusinessAccountOutcome (s : Nat) (_body : String) : Except String Unit :=
  if s ≠ 200 then
    Except.error ("unexpected HTTP status: " ++ statusText s)
  else Except.ok ()

/-- `DeletePermission` (permissions.go): success is exactly 200. -/
def deletePermissionOutcome (s : Nat) (body : String) : Except String Unit :=
  if s ≠ 200 then
    Except.error ("unexpected status code: got " ++ toString s ++ ", body: " ++ body)
  else Except.ok ()

/-- `DeleteServiceAccount` (service accounts file): success is exactly 200. -/
def deleteServiceAccountOutcome (s : Nat) (body : String) : Except String Unit :=
  if s ≠ 200 then
    Except.error ("unexpected status code: got " ++ toString s ++ ", body: " ++ body)
  else Except.ok ()

/-- The claim's "error carrying the response body as diagnostic text":
the error text ends with the body (every carrying call site appends the body
last). -/
def carriesBody (err body : String) : Prop := body.data <:+ err.data

theorem carriesBody_append (p body : String) : carriesBody (p ++ body) body := by
  show body.data <:+ (p ++ body).data
  rw [String.data_append p body]
  exact List.suffix_append p.data body.data

theorem ite_error_ok_iff {c : Prop} [Decidable c] (m : String) :
    ((if c then Except.error m else Except.ok ()) = Except.ok ()) ↔ ¬ c := by
  by_cases h : c <;> simp [h]

theorem error_of_ite_carries {c : Prop} [Decidable c] (p body e : String)
    (he : (if c then Except.error (p ++ body) else Except.ok ()) = Except.error e) :
    carriesBody e body := by
  by_cases h : c
  · rw [if_pos h] at he
    injection he with h'
    rw [← h']
    exact carriesBody_append p body
  · rw [if_neg h] at he
    exact absurd he (by simp)

theorem error_of_ite_carries_self {c : Prop} [Decidable c] (body e : String)
    (he : (if c then Except.error body else Except.ok ()) = Except.error e) :
    carriesBody e body := by
  by_cases h : c
  · rw [if_pos h] at he
    injection he with h'
    rw [← h']
    exact List.suffix_refl body.data
  · rw [if_neg h] at he
    exact absurd he (by simp)

theorem error_of_ite_eq {c : Prop} [Decidable c] (m e : String)
    (he : (if c then Except.error m else Except.ok ()) = Except.error e) :
    e = m := by
  by_cases h : c
  · rw [if_pos h] at he
    injection he with h'
    exact h'.symm
  · rw [if_neg h] at he
    exact absurd he (by simp)

/-- Counterexample to C7 at explicit inputs: `DeleteAgencyAccount` treats
status 204 — not 200, and not from tokens' delete-by-id — as success instead
of an error; `DeleteBusinessAccount` at status 404 yields an error that
carries only the status line, not the response body; and
`DeleteCelebrityAccount` treats a status-200 reply whose decoded `Status`
field is `"failed"` as an error, so 200 is not sufficient for success
there. -/
theorem c7_counterexample_agency_2xx_business_no_body :
    deleteAgencyAccountOutcome 204 "ignored" = Except.ok () ∧
    (204 : Nat) ≠ 200 ∧
    deleteBusinessAccountOutcome 404 "the response body" =
      Except.error ("unexpected HTTP status: " ++ statusText 404) ∧
    ¬ carriesBody ("unexpected HTTP status: " ++ statusText 404)
      "the response body" ∧
    deleteCelebrityAccountOutcome 200 "" (Except.ok ⟨0, "failed", "boom"⟩) =
      Except.error ("failed to delete celebrity account: " ++ "boom") ∧
    deleteCelebrityAccountOutcome 200 "" (Except.ok ⟨0, "failed", "boom"⟩) ≠
      Except.ok () := by
  refine ⟨rfl, by decide, rfl, ?_, rfl, by simp [deleteCelebrityAccountOutcome]⟩
  show ¬ ("the response body".data <:+ ("unexpected HTTP status: " ++ statusText 404).data)
  decide

/-- C7 as amended: every single-endpoint delete operation treats exactly
status 200 as success, with these exceptions — tokens' delete-by-id
(`DeleteToken`) treats exactly 204 as success, `DeleteAgencyAccount` treats
every 2xx status as success, and for `DeleteCelebrityAccount` status 200 is
necessary but not sufficient: its reply must also decode to a response whose
`Status` field is `"success"`.  A non-success status yields an error whose
text carries the response body, except for `DeleteBusinessAccount`, whose
error carries only the status line; `DeleteCelebrityAccount`'s two
200-but-failed errors carry the decode error and the response's message
respectively. -/
theorem c7_amended_delete_success_statuses :
    ∀ (s : Nat) (body : String),
      (deleteAgencyAccountOutcome s body = Except.ok () ↔ 200 ≤ s ∧ s < 300) ∧
      (deleteTokenOutcome s body = Except.ok () ↔ s = 204) ∧
      (deleteTokensByUserIDOutcome s body = Except.ok () ↔ s = 200) ∧
      (deleteExpiredTokensOutcome s body = Except.ok () ↔ s = 200) ∧
      (deleteAccountMembershipOutcome s body = Except.ok () ↔ s = 200) ∧
      (deleteAccountLinkOutcome s body = Except.ok () ↔ s = 200) ∧
      (∀ decoded, deleteCelebrityAccountOutcome s body decoded = Except.ok () ↔
        s = 200 ∧ ∃ r, decoded = Except.ok r ∧ r.status = "success") ∧
      (deleteEnterpriseAccountOutcome s body = Except.ok () ↔ s = 200) ∧
      (deleteGovernmentAccountOutcome s body = Except.ok () ↔ s = 200) ∧
      (deleteBusinessAccountOutcome s body = Except.ok () ↔ s = 200) ∧
      (deletePermissionOutcome s body = Except.ok () ↔ s = 200) ∧
      (deleteServiceAccountOutcome s body = Except.ok () ↔ s = 200) ∧
      (∀ e, deleteAgencyAccountOutcome s body = Except.error e → carriesBody e body) ∧
      (∀ e, deleteTokenOutcome s body = Except.error e → carriesBody e body) ∧
      (∀ e, deleteTokensByUserIDOutcome s body = Except.error e → carriesBody e body) ∧
      (∀ e, deleteExpiredTokensOutcome s body = Except.error e → carriesBody e body) ∧
      (∀ e, deleteAccountMembershipOutcome s body = Except.error e → carriesBody e body) ∧
      (∀ e, deleteAccountLinkOutcome s body = Except.error e → carriesBody e body) ∧
      (∀ decoded e, s ≠ 200 →
        deleteCelebrityAccountOutcome s body decoded = Except.error e →
        carriesBody e body) ∧
      (∀ decoded e, s = 200 → decoded = Except.error e →
        deleteCelebrityAccountOutcome s body decoded =
          Except.error ("could not parse response: " ++ e)) ∧
      (∀ (decoded : Except String CreateCelebrityAccountResponse) r,
        s = 200 → decoded = Except.ok r → r.status ≠ "success" →
        deleteCelebrityAccountOutcome s body decoded =
          Except.error ("failed to delete celebrity account: " ++ r.message)) ∧
      (∀ e, deleteEnterpriseAccountOutcome s body = Except.error e → carriesBody e body) ∧
      (∀ e, deleteGovernmentAccountOutcome s body = Except.error e → carriesBody e body) ∧
      (∀ e, deletePermissionOutcome s body = Except.error e → carriesBody e body) ∧
      (∀ e, deleteServiceAccountOutcome s body = Except.error e → carriesBody e body) ∧
      (∀ e, deleteBusinessAccountOutcome s body = Except.error e →
        e = "unexpected HTTP status: " ++ statusText s) := by
  intro s body
  refine ⟨?_, ?_, ?_, ?_, ?_, ?_, ?_, ?_, ?_, ?_, ?_, ?_,
    ?_, ?_, ?_, ?_, ?_, ?_, ?_, ?_, ?_, ?_, ?_, ?_, ?_, ?_⟩
  · exact (ite_error_ok_iff _).trans (by omega)
  · exact (ite_error_ok_iff _).trans not_not
  · exact (ite_error_ok_iff _).trans not_not
  · exact (ite_error_ok_iff _).trans not_not
  · exact (ite_error_ok_iff _).trans not_not
  · exact (ite_error_ok_iff _).trans not_not
  · intro decoded
    constructor
    · intro h
      by_cases hs : s = 200
      · subst hs
        rcases hd : decoded with e | r
        · rw [hd] at h
          simp [deleteCelebrityAccountOutcome] at h
        · rw [hd] at h
          by_cases hr : r.status = "success"
          · exact ⟨rfl, r, rfl, hr⟩
          · simp [deleteCelebrityAccountOutcome, hr] at h
      · simp [deleteCelebrityAccountOutcome, hs] at h
    · rintro ⟨hs, r, hd, hr⟩
      subst hs
      rw [hd]
      simp [deleteCelebrityAccountOutcome, hr]
  · exact (ite_error_ok_iff _).trans not_not
  · exact (ite_error_ok_iff _).trans not_not
  · exact (ite_error_ok_iff _).trans not_not
  · exact (ite_error_ok_iff _).trans not_not
  · exact (ite_error_ok_iff _).trans not_not
  · exact fun e he => error_of_ite_carries _ body e he
  · exact fun e he => error_of_ite_carries _ body e he
  · exact fun e he => error_of_ite_carries _ body e he
  · exact fun e he => error_of_ite_carries _ body e he
  · exact fun e he => error_of_ite_carries _ body e he
  · exact fun e he => error_of_ite_carries _ body e he
  · intro decoded e hs he
    unfold deleteCelebrityAccountOutcome at he
    rw [if_pos hs] at he
    injection he with h'
    rw [← h']
    exact carriesBody_append _ body
  · intro decoded e hs hd
    subst hs
    rw [hd]
    simp [deleteCelebrityAccountOutcome]
  · intro decoded r hs hd hr
    subst hs
    rw [hd]
    simp [deleteCelebrityAccountOutcome, hr]
  · exact fun e he => error_of_ite_carries _ body e he
  · exact fun e he => error_of_ite_carries_self body e he
  · exact fun e he => error_of_ite_carries _ body e he
  · exact fun e he => error_of_ite_carries _ body e he
  · exact fun e he => error_of_ite_eq _ e he

/-- Witness for C7 as amended: `DeleteAccountMembership` at status 503 with
body "upstream down" yields an error whose text carries the body. -/
theorem c7_amended_delete_success_statuses_witness :
    carriesBody ("server returned status " ++ toString (503 : Nat) ++ ": " ++
      "upstream down") "upstream down" :=
  (c7_amended_delete_success_statuses 503
      "upstream down").2.2.2.2.2.2.2.2.2.2.2.2.2.2.2.2.1
    ("server returned status " ++ toString (503 : Nat) ++ ": " ++ "upstream down")
    rfl

end AccountsClient
